import Mathlib

/-!
Verification of `multipymenu` (file `src/multipymenu/multipysimplemenu.py`).

Shallow embedding conventions:
* Python `str` values are embedded as `List Char`; Python `int` as `Int`.
* The external collaborators (`multipyterminal`, `multipycolors`,
  `multipymath.clamp`, `special_keys`) are not part of the repository
  sources provided, so they are modelled from the spec where their behaviour
  matters (see the doc comments on `Key` and `clamp`); terminal output calls
  are recorded as an explicit `Effect` trace rather than interpreted.
* `re.match(re.escape(pat), option)` is embedded by a small anchored
  regular-expression interpreter (`parsePattern` / `toksMatchAtStart`)
  together with an embedding `reEscape` of `re.escape`, so that the
  escaping step is semantically meaningful rather than assumed away.
* The event loop of `MultiPySimpleMenu.show` is embedded as a step
  function over an explicit session state, consuming one key event per
  iteration; terminal geometry is treated as constant within a single
  iteration (each `os.get_terminal_size()` call of one iteration returns
  the geometry supplied for that iteration).
* Exceptions raised by the external calls are modelled by an optional
  call-counter `failAt`: the n-th external call raises when `failAt = some n`.
  The `try`/`finally` of `show` is embedded structurally in `showRun`.
-/

/-- Key events delivered by `MultiPyKeyStrokes.readch`.  Modelled from the
spec: the `special_keys` module is not among the provided sources; per the
spec the event is "either a decodable single character or one of
{CONFIRM, ARROW_UP, ARROW_DOWN, SLASH, BACKSPACE, other-ignored}". -/
inductive Key where
  | INTRO
  | ARROW_UP
  | ARROW_DOWN
  | SLASH
  | BACKSPACE
  | char (c : Char)
  | other
deriving DecidableEq

/-- One observable call to an external collaborator (terminal rendering,
geometry probe, raw-mode key handler), recorded in program order. -/
inductive Effect where
  | initKeys
  | probe
  | readch
  | clear_terminal
  | print_lines (opts : List (List Char)) (buf : List Char)
  | delete_lines (n : Int)
  | delete_all_lines (buf : List Char) (lines : Int)
  | cursor_backwards (times : Nat)
  | deinit
deriving DecidableEq

/-- Modelled from the spec: the generic numeric clamp helper
`multipymenu.multipymath.clamp` is not among the provided sources.  The
spec describes it as "a generic numeric clamp helper" used to "Clamp
`selectedIndex` into `[0, max(0, len(VisibleOptions)-1)]`", so the lower
bound takes precedence when the upper bound lies below it. -/
def clamp (value lo hi : Int) : Int := max lo (min value hi)

/-- The characters that are special in Python regular expressions and are
therefore neutralised by `re.escape`. -/
def reMetachars : List Char :=
  ['.', '^', '$', '*', '+', '?', Char.ofNat 123, Char.ofNat 125,
   '[', ']', '(', ')', '|', '\\']

/-- `re.escape` on a single character: special characters receive a
preceding backslash. -/
def escapeChar (c : Char) : List Char :=
  if c ∈ reMetachars then ['\\', c] else [c]

/-- Embedding of Python `re.escape`. -/
def reEscape : List Char → List Char
  | [] => []
  | c :: rest => escapeChar c ++ reEscape rest

/-- A parsed regular-expression token: a literal character or the
wildcard `.`. -/
inductive RTok where
  | lit (c : Char)
  | anyChar
deriving DecidableEq

/-- Parse a regular-expression pattern.  Only the fragment reachable from
escaped patterns is interpreted (backslash escapes, plain literals, and
the wildcard `.`); any other metacharacter yields `none`.  The menu code
only ever matches patterns produced by `re.escape`, which stay inside
this fragment. -/
def parsePattern : List Char → Option (List RTok)
  | [] => some []
  | c :: rest =>
    if c = '\\' then
      match rest with
      | [] => none
      | d :: rest' => (parsePattern rest').map (fun ts => RTok.lit d :: ts)
    else if c = '.' then
      (parsePattern rest).map (fun ts => RTok.anyChar :: ts)
    else if c ∈ reMetachars then none
    else (parsePattern rest).map (fun ts => RTok.lit c :: ts)

/-- Match a token list against the beginning of a string (the anchored
semantics of Python `re.match`). -/
def toksMatchAtStart : List RTok → List Char → Bool
  | [], _ => true
  | RTok.lit c :: ts, d :: ds => c == d && toksMatchAtStart ts ds
  | RTok.anyChar :: ts, _ :: ds => toksMatchAtStart ts ds
  | _ :: _, [] => false

/-- Embedding of `re.match(pat, s)` (truthiness of the returned match
object) for patterns inside the interpreted fragment. -/
def reMatch (pat : List Char) (s : List Char) : Bool :=
  match parsePattern pat with
  | some ts => toksMatchAtStart ts s
  | none => false

/-- Embedding of the `MultiPySimpleMenu` dataclass.  The `selected_color`
and `selected_style` fields hold the `.value` strings of the colour and
style enumeration members (the `multipycolors` module is external). -/
structure MultiPySimpleMenu where
  options : List (List Char)
  default_option : Int
  prechar : List Char
  clear_on_exit : Bool
  selected_color : List Char
  selected_style : List Char
  _selected_option : Int
  _searching_buffer : List Char
  _terminal_last_line_size : Int
  _terminal_last_column_size : Int
deriving DecidableEq

/-- Construction of a `MultiPySimpleMenu` from its configuration
arguments.  The Python source reads

  `_selected_option:int = default_option`

inside the class body; at class-creation time the name `default_option`
there denotes the value bound by `default_option:int = 0`, namely the
constant `0`, so the dataclass default of `_selected_option` is `0`
whatever `default_option` the caller passes.  The two terminal-size
defaults are probed once at class-creation time; they are passed here as
the `classLines`/`classCols` parameters. -/
def mkMultiPySimpleMenu (options : List (List Char)) (default_option : Int)
    (prechar : List Char) (clear_on_exit : Bool)
    (selected_color selected_style : List Char)
    (classLines classCols : Int) : MultiPySimpleMenu :=
  { options := options
    default_option := default_option
    prechar := prechar
    clear_on_exit := clear_on_exit
    selected_color := selected_color
    selected_style := selected_style
    _selected_option := 0
    _searching_buffer := []
    _terminal_last_line_size := classLines
    _terminal_last_column_size := classCols }

/-- The ANSI reset marker `ENDC` from `multipycolors`. -/
def ENDC : List Char := [Char.ofNat 27, '[', '0', 'm']

/-- Embedding of the `_searching` property: searching is active exactly
when the searching buffer is non-empty. -/
def _searching (m : MultiPySimpleMenu) : Prop :=
  0 < m._searching_buffer.length

instance (m : MultiPySimpleMenu) : Decidable (_searching m) :=
  inferInstanceAs (Decidable (0 < m._searching_buffer.length))

/-- The filtering stage of the `_printable_options` property (lines 46-55
of the source): when searching, keep the options matched by
`re.match(re.escape(buffer[1:]), option)`; otherwise take a copy of the
full option list. -/
def availableOptions (m : MultiPySimpleMenu) : List (List Char) :=
  if _searching m then
    m.options.filter (fun option => reMatch (reEscape (m._searching_buffer.drop 1)) option)
  else
    m.options

/-- The styling stage of the `_printable_options` property (lines 57-64
of the source): the entry at `_selected_option` receives the colour and
style codes, and every entry is wrapped in `prechar` and `ENDC`. -/
def _printable_options (m : MultiPySimpleMenu) : List (List Char) :=
  (availableOptions m).enum.map (fun p =>
    let temp_option := if (p.1 : Int) = m._selected_option
      then m.selected_color ++ m.selected_style ++ p.2
      else p.2
    m.prechar ++ temp_option ++ ENDC)

/-- The key-dispatch block of the event loop (lines 117-130 of the
source), returning the updated state together with the terminal-cursor
effects it performs. -/
def dispatch (m : MultiPySimpleMenu) (key : Key) : MultiPySimpleMenu × List Effect :=
  if key = Key.ARROW_UP then
    ({ m with _selected_option := m._selected_option - 1 }, [])
  else if key = Key.ARROW_DOWN then
    ({ m with _selected_option := m._selected_option + 1 }, [])
  else if key = Key.SLASH ∧ ¬ _searching m then
    ({ m with _searching_buffer := ['/'] }, [])
  else if _searching m then
    if key = Key.BACKSPACE then
      let char_to_remove := m._searching_buffer.getLastD ' '
      ({ m with _searching_buffer := m._searching_buffer.dropLast },
       [Effect.cursor_backwards (if char_to_remove = '\t' then 7 else 1)])
    else
      match key with
      | Key.char c => ({ m with _searching_buffer := m._searching_buffer ++ [c] }, [])
      | _ => (m, [])
  else
    (m, [])

/-- One key-handling step of the event loop on the session state: the
dispatch block followed by the clamping of `_selected_option` (line 132
of the source). -/
def stepState (m : MultiPySimpleMenu) (key : Key) : MultiPySimpleMenu :=
  let m2 := (dispatch m key).1
  { m2 with
    _selected_option :=
      clamp m2._selected_option 0 (((_printable_options m2).length : Int) - 1) }

/-- The running state of one `show` session's external-call sequence: how
many external calls have been made, and the effects so far (most recent
first). -/
structure RunSt where
  ctr : Nat
  trace : List Effect
deriving DecidableEq

/-- Perform one external call: record its effect, advance the call
counter, and report whether this call raises (it does exactly when the
failure injection point `failAt` names its index). -/
def callE (failAt : Option Nat) (e : Effect) (s : RunSt) : RunSt × Bool :=
  (⟨s.ctr + 1, e :: s.trace⟩, decide (failAt = some s.ctr))

/-- Perform a sequence of external calls, stopping at the first one that
raises. -/
def emit (failAt : Option Nat) : List Effect → RunSt → RunSt × Bool
  | [], s => (s, false)
  | e :: es, s =>
    let c := callE failAt e s
    if c.2 then (c.1, true) else emit failAt es c.1

/-- Result of running the `while True` loop of `show` on a finite script
of inputs: a `return` from the `try` body, an exception propagating out of
the `try` body, or the script running out while the loop still waits for
keys.  Each constructor carries the session state and call record at that
point. -/
inductive LoopRes where
  | ret (r : Option Int) (m : MultiPySimpleMenu) (s : RunSt)
  | raised (m : MultiPySimpleMenu) (s : RunSt)
  | fuelOut (m : MultiPySimpleMenu) (s : RunSt)
deriving DecidableEq

def LoopRes.menu : LoopRes → MultiPySimpleMenu
  | .ret _ m _ => m
  | .raised m _ => m
  | .fuelOut m _ => m

def LoopRes.st : LoopRes → RunSt
  | .ret _ _ s => s
  | .raised _ s => s
  | .fuelOut _ s => s

def LoopRes.resultOf : LoopRes → Option (Option Int)
  | .ret r _ _ => some r
  | _ => none

/-- The resize handling of lines 96-98 of the source: when the probed
geometry `g` differs from the stored snapshot, the snapshot is updated to
`g`. -/
def resizeUpd (g : Int × Int) (m : MultiPySimpleMenu) : MultiPySimpleMenu :=
  if g.1 ≠ m._terminal_last_line_size ∨ g.2 ≠ m._terminal_last_column_size
  then { m with _terminal_last_line_size := g.1, _terminal_last_column_size := g.2 }
  else m

/-- The external calls made at the top of a loop iteration: the geometry
probe of the resize check (line 96) and, when a resize was detected, the
screen clear and full redraw of lines 99-100, rendered from the
updated-snapshot state. -/
def preEffects (g : Int × Int) (m : MultiPySimpleMenu) : List Effect :=
  if g.1 ≠ m._terminal_last_line_size ∨ g.2 ≠ m._terminal_last_column_size
  then [Effect.probe, Effect.clear_terminal,
        Effect.print_lines (_printable_options (resizeUpd g m))
          (resizeUpd g m)._searching_buffer]
  else [Effect.probe]

/-- The erase calls of the `INTRO` exit path (lines 106-111 of the
source): with `clear_on_exit`, erase everything using the stored line
snapshot; otherwise probe the geometry again and erase the lines below
the option block. -/
def introEffects (g : Int × Int) (m1 : MultiPySimpleMenu) : List Effect :=
  if m1.clear_on_exit
  then [Effect.delete_all_lines m1._searching_buffer m1._terminal_last_line_size]
  else [Effect.probe, Effect.delete_lines (g.1 - (m1.options.length : Int) - 1)]

/-- Result of one iteration of the `while True` loop: continue looping,
return out of the `try` body, or raise out of the `try` body. -/
inductive IterRes where
  | cont (m : MultiPySimpleMenu) (s : RunSt)
  | ret (r : Option Int) (m : MultiPySimpleMenu) (s : RunSt)
  | raised (m : MultiPySimpleMenu) (s : RunSt)
deriving DecidableEq

def IterRes.menuI : IterRes → MultiPySimpleMenu
  | .cont m _ => m
  | .ret _ m _ => m
  | .raised m _ => m

def IterRes.stI : IterRes → RunSt
  | .cont _ s => s
  | .ret _ _ s => s
  | .raised _ s => s

def IterRes.isRetI : IterRes → Bool
  | .ret _ _ _ => true
  | _ => false

/-- One iteration of the `while True` loop of `show` (lines 94-135 of the
source): resize check and redraw (lines 96-100), blocking key read
(line 103), the `INTRO` exit path (lines 105-115), the dispatch block
(lines 117-130), the clamp (line 132), and the erase-and-redraw of
lines 134-135.  `g` is the terminal geometry during this iteration and
`key` the key returned by `readch`. -/
def loopIter (failAt : Option Nat) (g : Int × Int) (key : Key)
    (m : MultiPySimpleMenu) (s : RunSt) : IterRes :=
  let m1 := resizeUpd g m
  let c1 := emit failAt (preEffects g m) s
  if c1.2 then .raised m1 c1.1 else
  let c2 := callE failAt Effect.readch c1.1
  if c2.2 then .raised m1 c2.1 else
  if key = Key.INTRO then
    let c3 := emit failAt (introEffects g m1) c2.1
    if c3.2 then .raised m1 c3.1 else
    let c4 := callE failAt Effect.deinit c3.1
    if c4.2 then .raised m1 c4.1 else
    .ret (if (_printable_options m1).length ≠ 0 then some m1._selected_option else none)
      m1 c4.1
  else
    let d := dispatch m1 key
    let c5 := emit failAt d.2 c2.1
    if c5.2 then .raised d.1 c5.1 else
    let m3 := stepState m1 key
    let c6 := emit failAt
      [Effect.delete_all_lines m3._searching_buffer m3._terminal_last_line_size,
       Effect.print_lines (_printable_options m3) m3._searching_buffer] c5.1
    if c6.2 then .raised m3 c6.1 else
    .cont m3 c6.1

/-- Continue the loop after one iteration: keep looping on `cont`,
propagate a `return` or an exception out of the loop otherwise. -/
def LoopRes.ofIter (next : MultiPySimpleMenu → RunSt → LoopRes) : IterRes → LoopRes
  | .cont m' s' => next m' s'
  | .ret r m' s' => .ret r m' s'
  | .raised m' s' => .raised m' s'

/-- Embedding of the `while True` loop of `show`: iterate `loopIter` over
the script of per-iteration inputs. -/
def showLoop (failAt : Option Nat) :
    List ((Int × Int) × Key) → MultiPySimpleMenu → RunSt → LoopRes
  | [], m, s => .fuelOut m s
  | (g, key) :: rest, m, s =>
    LoopRes.ofIter (showLoop failAt rest) (loopIter failAt g key m s)

/-- The observable outcome of a `show` call. -/
inductive Outcome where
  | ret (r : Option Int)
  | raised
  | fuelOut
deriving DecidableEq

/-- Embedding of `MultiPySimpleMenu.show` (lines 76-137 of the source):
raw-mode initialisation, the initial render of line 91 (performed before
the `try` block is entered), the guarded loop, and the `finally` clause
that calls `deinit` when the `try` body returns or raises.  Returns the
effect trace in program order together with the outcome. -/
def showRun (failAt : Option Nat) (m : MultiPySimpleMenu)
    (script : List ((Int × Int) × Key)) : List Effect × Outcome :=
  let s0 : RunSt := ⟨0, []⟩
  let c1 := callE failAt Effect.initKeys s0
  if c1.2 then (c1.1.trace.reverse, Outcome.raised) else
  let c2 := callE failAt
    (Effect.print_lines (_printable_options m) m._searching_buffer) c1.1
  if c2.2 then (c2.1.trace.reverse, Outcome.raised) else
  match showLoop failAt script m c2.1 with
  | LoopRes.ret r _ s => ((Effect.deinit :: s.trace).reverse, Outcome.ret r)
  | LoopRes.raised _ s => ((Effect.deinit :: s.trace).reverse, Outcome.raised)
  | LoopRes.fuelOut _ s => (s.trace.reverse, Outcome.fuelOut)

/-- Concrete option list used to evaluate the theorems on concrete
inputs: the spec's scenario options Alpha, Beta, Gamma. -/
def demoOptions : List (List Char) :=
  [['A', 'l', 'p', 'h', 'a'], ['B', 'e', 't', 'a'], ['G', 'a', 'm', 'm', 'a']]

/-- A concrete menu in its freshly constructed state. -/
def demoMenu : MultiPySimpleMenu :=
  mkMultiPySimpleMenu demoOptions 0 ['>', ' '] true [] [] 24 80

/-- The concrete menu mid-session, with the search buffer `/B`. -/
def demoSearchMenu : MultiPySimpleMenu :=
  { demoMenu with _searching_buffer := ['/', 'B'] }

theorem callE_none (e : Effect) (s : RunSt) :
    callE none e s = (⟨s.ctr + 1, e :: s.trace⟩, false) := by
  simp [callE]

theorem emit_none (es : List Effect) (s : RunSt) :
    emit none es s = (⟨s.ctr + es.length, es.reverse ++ s.trace⟩, false) := by
  induction es generalizing s with
  | nil => simp [emit]
  | cons e es ih =>
    simp [emit, callE_none, ih]
    omega

theorem printable_length (m : MultiPySimpleMenu) :
    (_printable_options m).length = (availableOptions m).length := by
  simp [_printable_options]

theorem availableOptions_sel (m : MultiPySimpleMenu) (v : Int) :
    availableOptions { m with _selected_option := v } = availableOptions m := rfl

theorem printable_length_sel (m : MultiPySimpleMenu) (v : Int) :
    (_printable_options { m with _selected_option := v }).length
      = (_printable_options m).length := by
  rw [printable_length, printable_length, availableOptions_sel]

theorem printable_geom (m : MultiPySimpleMenu) (a b : Int) :
    _printable_options
        { m with _terminal_last_line_size := a, _terminal_last_column_size := b }
      = _printable_options m := rfl

theorem parsePattern_reEscape (p : List Char) :
    parsePattern (reEscape p) = some (p.map RTok.lit) := by
  induction p with
  | nil => simp [reEscape, parsePattern]
  | cons c p ih =>
    by_cases hc : c ∈ reMetachars
    · simp [reEscape, escapeChar, hc, parsePattern, ih]
    · have h1 : c ≠ '\\' := fun h => hc (h ▸ (by decide : '\\' ∈ reMetachars))
      have h2 : c ≠ '.' := fun h => hc (h ▸ (by decide : '.' ∈ reMetachars))
      simp only [reEscape, escapeChar, hc, if_false, List.singleton_append]
      rw [parsePattern.eq_def]
      simp [h1, h2, hc, ih]

theorem toksMatch_lits (p : List Char) : ∀ s : List Char,
    toksMatchAtStart (p.map RTok.lit) s = p.isPrefixOf s := by
  induction p with
  | nil => intro s; simp [toksMatchAtStart]
  | cons c p ih =>
    intro s
    cases s with
    | nil => simp [toksMatchAtStart]
    | cons d s => simp [toksMatchAtStart, List.isPrefixOf_cons₂, ih]

theorem reMatch_reEscape (p s : List Char) :
    reMatch (reEscape p) s = p.isPrefixOf s := by
  simp [reMatch, parsePattern_reEscape, toksMatch_lits]

theorem dispatch_up (m : MultiPySimpleMenu) :
    dispatch m Key.ARROW_UP = ({ m with _selected_option := m._selected_option - 1 }, []) := rfl

theorem dispatch_down (m : MultiPySimpleMenu) :
    dispatch m Key.ARROW_DOWN = ({ m with _selected_option := m._selected_option + 1 }, []) := rfl

theorem stepState_buffer (m : MultiPySimpleMenu) (k : Key) :
    (stepState m k)._searching_buffer = ((dispatch m k).1)._searching_buffer := rfl

theorem stepState_options (m : MultiPySimpleMenu) (k : Key) :
    (stepState m k).options = ((dispatch m k).1).options := rfl

theorem dispatch_slash (m : MultiPySimpleMenu) (h : ¬ _searching m) :
    dispatch m Key.SLASH = ({ m with _searching_buffer := ['/'] }, []) := by
  simp [dispatch, h]

theorem dispatch_backspace (m : MultiPySimpleMenu) (h : _searching m) :
    dispatch m Key.BACKSPACE
      = ({ m with _searching_buffer := m._searching_buffer.dropLast },
         [Effect.cursor_backwards
            (if m._searching_buffer.getLastD ' ' = '\t' then 7 else 1)]) := by
  simp [dispatch, h]

theorem stepState_sel_up (m : MultiPySimpleMenu) :
    (stepState m Key.ARROW_UP)._selected_option
      = clamp (m._selected_option - 1) 0 (((_printable_options m).length : Int) - 1) := by
  simp only [stepState, dispatch_up]
  rw [printable_length_sel]

theorem stepState_sel_down (m : MultiPySimpleMenu) :
    (stepState m Key.ARROW_DOWN)._selected_option
      = clamp (m._selected_option + 1) 0 (((_printable_options m).length : Int) - 1) := by
  simp only [stepState, dispatch_down]
  rw [printable_length_sel]

theorem printable_length_step_down (m : MultiPySimpleMenu) :
    (_printable_options (stepState m Key.ARROW_DOWN)).length
      = (_printable_options m).length := by
  simp only [stepState, dispatch_down]
  rw [printable_length_sel, printable_length_sel]

/-- Claim C1.  The claim states that immediately after construction the
internal selection index `_selected_option` equals the configured
`default_option` clamped to `[0, len(options)-1]`.  The code disagrees:
the dataclass default of `_selected_option` is the class-creation-time
value of the name `default_option`, namely the constant `0`, and the
configured `default_option` is never copied into `_selected_option`.
This theorem evaluates the constructor at the failing input
`MultiPySimpleMenu(options=['a','b'], default_option=1)`: the selection
index is `0` while the claim requires `clamp(1, 0, 1) = 1`. -/
theorem C1_construction_bug :
    (mkMultiPySimpleMenu [['a'], ['b']] 1 ['>', ' '] true [] [] 24 80)._selected_option = 0
    ∧ clamp 1 0
        (((mkMultiPySimpleMenu [['a'], ['b']] 1 ['>', ' '] true [] [] 24 80).options.length : Int) - 1)
        = 1
    ∧ (mkMultiPySimpleMenu [['a'], ['b']] 1 ['>', ' '] true [] [] 24 80)._selected_option
        ≠ clamp 1 0
            (((mkMultiPySimpleMenu [['a'], ['b']] 1 ['>', ' '] true [] [] 24 80).options.length : Int) - 1) := by
  refine ⟨rfl, by decide, by decide⟩

/-- Claim C3.  For every menu state in which searching is active, the
filtered option list equals exactly the options, in original order, whose
text starts with the search pattern (the buffer minus its leading marker)
as a literal string: the regex-escaped, start-anchored match of the
source is literal prefix matching. -/
theorem C3_filter_literal (m : MultiPySimpleMenu) (h : _searching m) :
    availableOptions m
      = m.options.filter
          (fun option => (m._searching_buffer.drop 1).isPrefixOf option) := by
  simp only [availableOptions, if_pos h]
  congr 1
  funext o
  exact reMatch_reEscape _ o

theorem C3_filter_literal_witness :
    _searching demoSearchMenu
    ∧ availableOptions demoSearchMenu
        = demoSearchMenu.options.filter
            (fun option => (demoSearchMenu._searching_buffer.drop 1).isPrefixOf option) :=
  ⟨by decide, C3_filter_literal demoSearchMenu (by decide)⟩

/-- Claim C4.  After every state mutation performed by the event loop
(one key-dispatch step followed by the clamp of line 132), the selection
index satisfies `0 <= selectedIndex < max(1, visibleCount)`, including
when the filtered list is empty. -/
theorem C4_selection_invariant (m : MultiPySimpleMenu) (k : Key) :
    0 ≤ (stepState m k)._selected_option
    ∧ (stepState m k)._selected_option
        < max 1 ((_printable_options (stepState m k)).length : Int) := by
  have hsel : (stepState m k)._selected_option
      = clamp ((dispatch m k).1._selected_option) 0
          (((_printable_options (dispatch m k).1).length : Int) - 1) := rfl
  have hlen : (_printable_options (stepState m k)).length
      = (_printable_options (dispatch m k).1).length := by
    simp only [stepState]
    exact printable_length_sel _ _
  rw [hsel, hlen]
  have hL0 : (0 : Int) ≤ ((_printable_options (dispatch m k).1).length : Int) :=
    Int.natCast_nonneg _
  simp only [clamp, max_def, min_def]
  split_ifs <;> omega

/-- Claim C6.  From a valid selection index, arrow-down then arrow-up
returns to the original index whenever the original index lies strictly
below the last visible index (the case where no clamping interferes);
the index saturates at the boundaries without wraparound: arrow-up at 0
leaves it at 0, and arrow-down at the last visible index leaves it at
the last visible index. -/
theorem C6_updown (m : MultiPySimpleMenu)
    (h0 : 0 ≤ m._selected_option)
    (h1 : m._selected_option < ((_printable_options m).length : Int)) :
    (m._selected_option < ((_printable_options m).length : Int) - 1 →
      (stepState (stepState m Key.ARROW_DOWN) Key.ARROW_UP)._selected_option
        = m._selected_option)
    ∧ (m._selected_option = 0 →
      (stepState m Key.ARROW_UP)._selected_option = 0)
    ∧ (m._selected_option = ((_printable_options m).length : Int) - 1 →
      (stepState m Key.ARROW_DOWN)._selected_option
        = ((_printable_options m).length : Int) - 1) := by
  have hd := stepState_sel_down m
  have hu := stepState_sel_up (stepState m Key.ARROW_DOWN)
  rw [printable_length_step_down, hd] at hu
  refine ⟨fun h => ?_, fun h => ?_, fun h => ?_⟩
  · rw [hu]
    simp only [clamp, max_def, min_def]
    split_ifs <;> omega
  · rw [stepState_sel_up m, h]
    simp only [clamp, max_def, min_def]
    split_ifs <;> omega
  · rw [hd]
    simp only [clamp, max_def, min_def]
    split_ifs <;> omega

theorem C6_updown_witness :
    (0 ≤ demoMenu._selected_option
      ∧ demoMenu._selected_option < ((_printable_options demoMenu).length : Int))
    ∧ ((demoMenu._selected_option < ((_printable_options demoMenu).length : Int) - 1 →
        (stepState (stepState demoMenu Key.ARROW_DOWN) Key.ARROW_UP)._selected_option
          = demoMenu._selected_option)
      ∧ (demoMenu._selected_option = 0 →
        (stepState demoMenu Key.ARROW_UP)._selected_option = 0)
      ∧ (demoMenu._selected_option = ((_printable_options demoMenu).length : Int) - 1 →
        (stepState demoMenu Key.ARROW_DOWN)._selected_option
          = ((_printable_options demoMenu).length : Int) - 1)) :=
  ⟨⟨by decide, by decide⟩, C6_updown demoMenu (by decide) (by decide)⟩

/-- Claim C7.  From a non-searching state, pressing the search-trigger
key and then backspace leaves the search buffer empty, search mode
inactive, and the filtered option list equal to the full unfiltered
option list. -/
theorem C7_search_roundtrip (m : MultiPySimpleMenu) (h : ¬ _searching m) :
    (stepState (stepState m Key.SLASH) Key.BACKSPACE)._searching_buffer = []
    ∧ ¬ _searching (stepState (stepState m Key.SLASH) Key.BACKSPACE)
    ∧ availableOptions (stepState (stepState m Key.SLASH) Key.BACKSPACE)
        = m.options := by
  have hb1 : (stepState m Key.SLASH)._searching_buffer = ['/'] := by
    simp [stepState_buffer, dispatch_slash m h]
  have hs1 : _searching (stepState m Key.SLASH) := by
    simp [_searching, hb1]
  have hb2 : (stepState (stepState m Key.SLASH) Key.BACKSPACE)._searching_buffer = [] := by
    simp [stepState_buffer, dispatch_backspace _ hs1, dispatch_slash m h]
  have hs2 : ¬ _searching (stepState (stepState m Key.SLASH) Key.BACKSPACE) := by
    simp [_searching, hb2]
  have ho : (stepState (stepState m Key.SLASH) Key.BACKSPACE).options = m.options := by
    simp [stepState_options, dispatch_backspace _ hs1, dispatch_slash m h]
  exact ⟨hb2, hs2, by simp [availableOptions, hs2, ho]⟩

theorem C7_search_roundtrip_witness :
    (¬ _searching demoMenu)
    ∧ ((stepState (stepState demoMenu Key.SLASH) Key.BACKSPACE)._searching_buffer = []
      ∧ ¬ _searching (stepState (stepState demoMenu Key.SLASH) Key.BACKSPACE)
      ∧ availableOptions (stepState (stepState demoMenu Key.SLASH) Key.BACKSPACE)
          = demoMenu.options) :=
  ⟨by decide, C7_search_roundtrip demoMenu (by decide)⟩

theorem showLoop_intro_resultOf (m : MultiPySimpleMenu) (g : Int × Int)
    (rest : List ((Int × Int) × Key)) (s : RunSt) :
    (showLoop none ((g, Key.INTRO) :: rest) m s).resultOf
      = some (if (_printable_options m).length ≠ 0 then some m._selected_option else none) := by
  by_cases hr : g.1 ≠ m._terminal_last_line_size ∨ g.2 ≠ m._terminal_last_column_size
  · simp [showLoop, LoopRes.ofIter, loopIter, resizeUpd, preEffects, introEffects,
      emit_none, callE_none, hr, LoopRes.resultOf, printable_geom]
  · simp [showLoop, LoopRes.ofIter, loopIter, resizeUpd, preEffects, introEffects,
      emit_none, callE_none, hr, LoopRes.resultOf]

/-- Claim C2.  When the confirm key `INTRO` is received, `show` ends the
session and returns the current selection index when the visible
(filtered, formatted) option list is non-empty, and returns no selection
(`None`) when the visible list is empty; in particular the empty case
cannot yield an out-of-range index. -/
theorem C2_intro_return (m : MultiPySimpleMenu) (g : Int × Int)
    (rest : List ((Int × Int) × Key)) :
    (showRun none m ((g, Key.INTRO) :: rest)).2
      = Outcome.ret
          (if (_printable_options m).length ≠ 0 then some m._selected_option else none)
    ∧ (_printable_options m = [] →
      (showRun none m ((g, Key.INTRO) :: rest)).2 = Outcome.ret none) := by
  have hmain : (showRun none m ((g, Key.INTRO) :: rest)).2
      = Outcome.ret
          (if (_printable_options m).length ≠ 0 then some m._selected_option else none) := by
    have hres := showLoop_intro_resultOf m g rest
      ⟨2, [Effect.print_lines (_printable_options m) m._searching_buffer, Effect.initKeys]⟩
    simp only [showRun, callE_none]
    rcases hsl : showLoop none ((g, Key.INTRO) :: rest) m
        ⟨2, [Effect.print_lines (_printable_options m) m._searching_buffer, Effect.initKeys]⟩ with
      ⟨r', m', s'⟩ | ⟨m', s'⟩ | ⟨m', s'⟩ <;>
      rw [hsl] at hres <;> simp [LoopRes.resultOf] at hres <;> simp [hres]
  refine ⟨hmain, fun he => ?_⟩
  rw [hmain, he]
  simp

theorem C2_intro_return_witness :
    _printable_options (stepState (stepState demoMenu Key.SLASH) (Key.char 'Z')) = []
    ∧ (showRun none (stepState (stepState demoMenu Key.SLASH) (Key.char 'Z'))
        [((24, 80), Key.INTRO)]).2 = Outcome.ret none :=
  ⟨by decide,
   (C2_intro_return (stepState (stepState demoMenu Key.SLASH) (Key.char 'Z'))
      (24, 80) []).2 (by decide)⟩

/-- Equality of all configuration fields of two menu states. -/
def configEq (a b : MultiPySimpleMenu) : Prop :=
  a.options = b.options
  ∧ a.default_option = b.default_option
  ∧ a.prechar = b.prechar
  ∧ a.clear_on_exit = b.clear_on_exit
  ∧ a.selected_color = b.selected_color
  ∧ a.selected_style = b.selected_style

theorem configEq_refl (a : MultiPySimpleMenu) : configEq a a :=
  ⟨rfl, rfl, rfl, rfl, rfl, rfl⟩

theorem configEq_trans {a b c : MultiPySimpleMenu}
    (h1 : configEq a b) (h2 : configEq b c) : configEq a c := by
  obtain ⟨e1, e2, e3, e4, e5, e6⟩ := h1
  obtain ⟨f1, f2, f3, f4, f5, f6⟩ := h2
  exact ⟨e1.trans f1, e2.trans f2, e3.trans f3, e4.trans f4, e5.trans f5, e6.trans f6⟩

theorem resizeUpd_configEq (g : Int × Int) (m : MultiPySimpleMenu) :
    configEq m (resizeUpd g m) := by
  unfold resizeUpd
  split_ifs <;> exact ⟨rfl, rfl, rfl, rfl, rfl, rfl⟩

theorem dispatch_configEq (m : MultiPySimpleMenu) (k : Key) :
    configEq m ((dispatch m k).1) := by
  cases k <;> simp [dispatch, configEq] <;> split_ifs <;> simp

theorem stepState_configEq (m : MultiPySimpleMenu) (k : Key) :
    configEq m (stepState m k) := by
  refine configEq_trans (dispatch_configEq m k) ?_
  simp [stepState, configEq]

theorem loopIter_configEq (failAt : Option Nat) (g : Int × Int) (key : Key)
    (m : MultiPySimpleMenu) (s : RunSt) :
    configEq m ((loopIter failAt g key m s).menuI) := by
  have hm1 := resizeUpd_configEq g m
  have hm3 := configEq_trans hm1 (stepState_configEq (resizeUpd g m) key)
  have hd := configEq_trans hm1 (dispatch_configEq (resizeUpd g m) key)
  simp only [loopIter]
  split_ifs <;> simp [IterRes.menuI, hm1, hm3, hd]

/-- Lifting of the per-iteration frame property to the whole loop: on
every path (continue, return, or raise) the final session state agrees
with the starting state on all configuration fields. -/
theorem showLoop_configEq (failAt : Option Nat) (script : List ((Int × Int) × Key)) :
    ∀ (m : MultiPySimpleMenu) (s : RunSt),
    configEq m ((showLoop failAt script m s).menu) := by
  induction script with
  | nil => intro m s; simpa [showLoop, LoopRes.menu] using configEq_refl m
  | cons it rest ih =>
    intro m s
    obtain ⟨g, key⟩ := it
    simp only [showLoop]
    rcases hit : loopIter failAt g key m s with ⟨m', s'⟩ | ⟨r, m', s'⟩ | ⟨m', s'⟩
    · have h := loopIter_configEq failAt g key m s
      rw [hit] at h
      simp only [IterRes.menuI] at h
      simp only [LoopRes.ofIter]
      exact configEq_trans h (ih m' s')
    · have h := loopIter_configEq failAt g key m s
      rw [hit] at h
      simpa [LoopRes.ofIter, IterRes.menuI, LoopRes.menu] using h
    · have h := loopIter_configEq failAt g key m s
      rw [hit] at h
      simpa [LoopRes.ofIter, IterRes.menuI, LoopRes.menu] using h

/-- Claim C9.  Throughout a `show` session the configuration fields of
the menu — `options`, `default_option`, `prechar`, `clear_on_exit`,
`selected_color`, `selected_style` — are never mutated: every state
reachable by the event loop (on the continue, return and raise paths
alike), and every single key-handling step, agrees with the starting
state on all of them; only the session fields (`_selected_option`,
`_searching_buffer` and the two terminal-size snapshots) change. -/
theorem C9_config_frame (failAt : Option Nat) (script : List ((Int × Int) × Key))
    (m : MultiPySimpleMenu) (s : RunSt) (k : Key) :
    configEq m ((showLoop failAt script m s).menu) ∧ configEq m (stepState m k) :=
  ⟨showLoop_configEq failAt script m s, stepState_configEq m k⟩

/-- Number of `deinit` calls in an effect list. -/
def countDeinit : List Effect → Nat
  | [] => 0
  | Effect.deinit :: es => countDeinit es + 1
  | _ :: es => countDeinit es

theorem countDeinit_append (l1 l2 : List Effect) :
    countDeinit (l1 ++ l2) = countDeinit l1 + countDeinit l2 := by
  induction l1 with
  | nil => simp [countDeinit]
  | cons e es ih => cases e <;> simp [countDeinit, ih] <;> omega

theorem countDeinit_reverse (l : List Effect) :
    countDeinit l.reverse = countDeinit l := by
  induction l with
  | nil => rfl
  | cons e es ih =>
    cases e <;> simp [List.reverse_cons, countDeinit_append, countDeinit, ih]

theorem countDeinit_preEffects (g : Int × Int) (m : MultiPySimpleMenu) :
    countDeinit (preEffects g m) = 0 := by
  unfold preEffects
  split_ifs <;> simp [countDeinit]

theorem countDeinit_introEffects (g : Int × Int) (m1 : MultiPySimpleMenu) :
    countDeinit (introEffects g m1) = 0 := by
  unfold introEffects
  split_ifs <;> simp [countDeinit]

theorem countDeinit_dispatch (m : MultiPySimpleMenu) (k : Key) :
    countDeinit ((dispatch m k).2) = 0 := by
  cases k <;> simp [dispatch, countDeinit] <;> split_ifs <;> simp [countDeinit]

theorem loopIter_none_deinit (g : Int × Int) (key : Key)
    (m : MultiPySimpleMenu) (s : RunSt) :
    countDeinit ((loopIter none g key m s).stI).trace
      = countDeinit s.trace + (if (loopIter none g key m s).isRetI then 1 else 0) := by
  by_cases hk : key = Key.INTRO
  · subst hk
    simp [loopIter, emit_none, callE_none, IterRes.stI, IterRes.isRetI,
      countDeinit, countDeinit_append, countDeinit_reverse,
      countDeinit_preEffects, countDeinit_introEffects]
  · simp [loopIter, emit_none, callE_none, hk, IterRes.stI, IterRes.isRetI,
      countDeinit, countDeinit_append, countDeinit_reverse,
      countDeinit_preEffects, countDeinit_dispatch]

theorem showLoop_none_deinit (script : List ((Int × Int) × Key)) :
    ∀ (m : MultiPySimpleMenu) (s : RunSt),
    countDeinit ((showLoop none script m s).st).trace
      = countDeinit s.trace
        + (if (showLoop none script m s).resultOf = none then 0 else 1) := by
  induction script with
  | nil => intro m s; simp [showLoop, LoopRes.st, LoopRes.resultOf]
  | cons it rest ih =>
    intro m s
    obtain ⟨g, key⟩ := it
    have hiter := loopIter_none_deinit g key m s
    simp only [showLoop]
    obtain ⟨res, hres⟩ : ∃ res, loopIter none g key m s = res := ⟨_, rfl⟩
    simp only [hres] at hiter ⊢
    cases res with
    | cont m' s' =>
      simp only [IterRes.stI, IterRes.isRetI, Bool.false_eq_true, if_false] at hiter
      simp [LoopRes.ofIter, ih m' s', hiter]
    | ret r m' s' =>
      simp only [IterRes.stI, IterRes.isRetI, if_true] at hiter
      simp [LoopRes.ofIter, LoopRes.st, LoopRes.resultOf, hiter]
    | raised m' s' =>
      simp only [IterRes.stI, IterRes.isRetI, Bool.false_eq_true, if_false] at hiter
      simp [LoopRes.ofIter, LoopRes.st, LoopRes.resultOf, hiter]

/-- Claim C10.  On the confirm (`INTRO`) exit path of `show`, `deinit`
on the key event source is invoked exactly twice: once explicitly before
the `return` (line 112 of the source), and once more by the enclosing
`finally` block (line 137), which Python runs when the `return` leaves
the `try` body.  The key handler's `deinit` must therefore tolerate a
repeated call within one session. -/
theorem C10_double_deinit (m : MultiPySimpleMenu) (script : List ((Int × Int) × Key))
    (r : Option Int) (h : (showRun none m script).2 = Outcome.ret r) :
    countDeinit (showRun none m script).1 = 2 := by
  have hl := showLoop_none_deinit script m
    ⟨2, [Effect.print_lines (_printable_options m) m._searching_buffer, Effect.initKeys]⟩
  simp only [showRun, callE_none] at h ⊢
  rcases hsl : showLoop none script m
      ⟨2, [Effect.print_lines (_printable_options m) m._searching_buffer, Effect.initKeys]⟩ with
    ⟨r', m', s'⟩ | ⟨m', s'⟩ | ⟨m', s'⟩
  · rw [hsl] at hl
    simp [LoopRes.st, LoopRes.resultOf, countDeinit] at hl
    simp [hsl, countDeinit_reverse, countDeinit_append, countDeinit, hl]
  · rw [hsl] at h
    simp at h
  · rw [hsl] at h
    simp at h

theorem C10_double_deinit_witness :
    (showRun none demoMenu [((24, 80), Key.INTRO)]).2 = Outcome.ret (some 0)
    ∧ countDeinit (showRun none demoMenu [((24, 80), Key.INTRO)]).1 = 2 :=
  ⟨by decide, C10_double_deinit demoMenu [((24, 80), Key.INTRO)] (some 0) (by decide)⟩

/-- Claim C5 counterexample.  The claim asserts that the raw-mode key
event source is released on every exit path of `show`, including an
exception raised during the initial render.  The code disagrees: the
initial `print_lines` call of line 91 runs after `kshandler.init()` but
before the `try` block of line 93 is entered, so an exception raised
there (external call index 1, the initial render) surfaces to the caller
without `deinit` ever being called. -/
theorem C5_counterexample :
    (showRun (some 1) demoMenu []).2 = Outcome.raised
    ∧ Effect.deinit ∉ (showRun (some 1) demoMenu []).1 := by
  constructor
  · decide
  · decide

/-- Claim C5 as amended.  `deinit` is guaranteed on the return path of
the `try` body (both confirm cases) and on any exception raised inside
the loop — which covers geometry probing, rendering and key reads there —
but not on an exception raised before the `try` block is entered: call
index 0 is `kshandler.init()` itself and call index 1 is the initial
render of line 91, and only those two escape without `deinit`. -/
theorem C5_amended_release (failAt : Option Nat) (m : MultiPySimpleMenu)
    (script : List ((Int × Int) × Key)) :
    (∀ r : Option Int, (showRun failAt m script).2 = Outcome.ret r →
      Effect.deinit ∈ (showRun failAt m script).1)
    ∧ ((showRun failAt m script).2 = Outcome.raised →
      failAt = some 0 ∨ failAt = some 1 ∨ Effect.deinit ∈ (showRun failAt m script).1) := by
  by_cases h0 : failAt = some 0
  · refine ⟨fun r hr => ?_, fun _ => Or.inl h0⟩
    simp [showRun, callE, h0] at hr
  · by_cases h1 : failAt = some 1
    · refine ⟨fun r hr => ?_, fun _ => Or.inr (Or.inl h1)⟩
      simp [showRun, callE, h0, h1] at hr
    · have hsl : ∃ res, showLoop failAt script m
          ⟨2, [Effect.print_lines (_printable_options m) m._searching_buffer,
               Effect.initKeys]⟩ = res := ⟨_, rfl⟩
      obtain ⟨res, hres⟩ := hsl
      constructor
      · intro r hr
        simp only [showRun, callE] at hr ⊢
        simp only [h0, h1, decide_eq_true_eq, decide_eq_false_iff_not, not_false_eq_true] at hr ⊢
        simp [h0, h1] at hr ⊢
        simp only [hres] at hr ⊢
        cases res with
        | ret r' m' s' => simp [List.mem_reverse]
        | raised m' s' => simp at hr
        | fuelOut m' s' => simp at hr
      · intro hr
        refine Or.inr (Or.inr ?_)
        simp only [showRun, callE] at hr ⊢
        simp [h0, h1] at hr ⊢
        simp only [hres] at hr ⊢
        cases res with
        | ret r' m' s' => simp at hr
        | raised m' s' => simp [List.mem_reverse]
        | fuelOut m' s' => simp at hr

theorem C5_release_witness :
    (showRun none demoMenu [((24, 80), Key.INTRO)]).2 = Outcome.ret (some 0)
    ∧ Effect.deinit ∈ (showRun none demoMenu [((24, 80), Key.INTRO)]).1 :=
  ⟨by decide,
   (C5_amended_release none demoMenu [((24, 80), Key.INTRO)]).1 (some 0) (by decide)⟩

theorem dispatch_geom (m : MultiPySimpleMenu) (k : Key) :
    ((dispatch m k).1)._terminal_last_line_size = m._terminal_last_line_size
    ∧ ((dispatch m k).1)._terminal_last_column_size = m._terminal_last_column_size := by
  cases k <;> simp [dispatch] <;> split_ifs <;> simp

theorem stepState_geom (m : MultiPySimpleMenu) (k : Key) :
    (stepState m k)._terminal_last_line_size = m._terminal_last_line_size
    ∧ (stepState m k)._terminal_last_column_size = m._terminal_last_column_size := by
  simpa [stepState] using dispatch_geom m k

theorem dispatch_effects (m : MultiPySimpleMenu) (k : Key) :
    (dispatch m k).2 = [] ∨ ∃ t, (dispatch m k).2 = [Effect.cursor_backwards t] := by
  cases k <;> simp [dispatch] <;> split_ifs <;> simp

theorem resizeUpd_pos (g : Int × Int) (m : MultiPySimpleMenu)
    (h : g.1 ≠ m._terminal_last_line_size ∨ g.2 ≠ m._terminal_last_column_size) :
    resizeUpd g m
      = { m with _terminal_last_line_size := g.1, _terminal_last_column_size := g.2 } := by
  simp [resizeUpd, h]

theorem resizeUpd_line (g : Int × Int) (m : MultiPySimpleMenu)
    (h : g.1 ≠ m._terminal_last_line_size ∨ g.2 ≠ m._terminal_last_column_size) :
    (resizeUpd g m)._terminal_last_line_size = g.1 := by
  rw [resizeUpd_pos g m h]

theorem resizeUpd_col (g : Int × Int) (m : MultiPySimpleMenu)
    (h : g.1 ≠ m._terminal_last_line_size ∨ g.2 ≠ m._terminal_last_column_size) :
    (resizeUpd g m)._terminal_last_column_size = g.2 := by
  rw [resizeUpd_pos g m h]

theorem resizeUpd_buf (g : Int × Int) (m : MultiPySimpleMenu) :
    (resizeUpd g m)._searching_buffer = m._searching_buffer := by
  unfold resizeUpd
  split_ifs <;> rfl

theorem resizeUpd_opts (g : Int × Int) (m : MultiPySimpleMenu) :
    (resizeUpd g m).options = m.options := by
  unfold resizeUpd
  split_ifs <;> rfl

theorem printable_resizeUpd (g : Int × Int) (m : MultiPySimpleMenu) :
    _printable_options (resizeUpd g m) = _printable_options m := by
  unfold resizeUpd
  split_ifs <;> simp [printable_geom]

theorem preEffects_pos (g : Int × Int) (m : MultiPySimpleMenu)
    (h : g.1 ≠ m._terminal_last_line_size ∨ g.2 ≠ m._terminal_last_column_size) :
    preEffects g m
      = [Effect.probe, Effect.clear_terminal,
         Effect.print_lines (_printable_options m) m._searching_buffer] := by
  rw [preEffects, if_pos h, resizeUpd_pos g m h, printable_geom]

/-- Claim C8.  When the geometry probed at the top of a loop iteration
differs from the stored snapshot: the snapshot of the session state
produced by the iteration equals the new geometry on every path; the
iteration's effect trace starts with the geometry probe, the screen
clear and the full redraw, all before the key read; and every
erase-line-count computation later in that iteration uses the new
geometry — each `delete_all_lines` call uses the new line count and each
`delete_lines` call erases `lines - len(options) - 1` lines computed
from the new geometry — never the stale pre-resize size. -/
theorem C8_resize_redraw (m : MultiPySimpleMenu) (g : Int × Int) (key : Key)
    (h : g.1 ≠ m._terminal_last_line_size ∨ g.2 ≠ m._terminal_last_column_size) :
    ((loopIter none g key m ⟨0, []⟩).menuI._terminal_last_line_size = g.1
      ∧ (loopIter none g key m ⟨0, []⟩).menuI._terminal_last_column_size = g.2)
    ∧ ((loopIter none g key m ⟨0, []⟩).stI.trace.reverse.take 4
        = [Effect.probe, Effect.clear_terminal,
           Effect.print_lines (_printable_options m) m._searching_buffer, Effect.readch])
    ∧ (∀ buf n, Effect.delete_all_lines buf n ∈ (loopIter none g key m ⟨0, []⟩).stI.trace →
        n = g.1)
    ∧ (∀ n, Effect.delete_lines n ∈ (loopIter none g key m ⟨0, []⟩).stI.trace →
        n = g.1 - (m.options.length : Int) - 1) := by
  have hline := resizeUpd_line g m h
  have hcol := resizeUpd_col g m h
  have hg3 := stepState_geom (resizeUpd g m) key
  have hde := dispatch_effects (resizeUpd g m) key
  by_cases hk : key = Key.INTRO
  · subst hk
    by_cases hc : (resizeUpd g m).clear_on_exit
    · simp only [loopIter, preEffects_pos g m h, emit_none, callE_none, introEffects, hc,
        if_true, IterRes.menuI, IterRes.stI]
      simp [hline, hcol, List.take]
    · simp only [loopIter, preEffects_pos g m h, emit_none, callE_none, introEffects, hc,
        if_false, IterRes.menuI, IterRes.stI]
      simp [hline, hcol, List.take, resizeUpd_opts]
  · simp only [loopIter, preEffects_pos g m h, emit_none, callE_none, hk,
      IterRes.menuI, IterRes.stI]
    simp [hline, hcol, hg3.1, hg3.2, List.take, hk]
    constructor
    · intro buf n hn
      rcases hn with ⟨_, hn⟩ | hmem
      · exact hn
      · rcases hde with hde | ⟨t, hde⟩ <;> simp [hde] at hmem
    · intro n hn
      rcases hde with hde | ⟨t, hde⟩ <;> simp [hde] at hn

theorem C8_resize_redraw_witness :
    ((30 : Int) ≠ demoMenu._terminal_last_line_size
      ∨ (90 : Int) ≠ demoMenu._terminal_last_column_size)
    ∧ (loopIter none (30, 90) Key.ARROW_DOWN demoMenu ⟨0, []⟩).menuI._terminal_last_line_size = 30
    ∧ ((loopIter none (30, 90) Key.ARROW_DOWN demoMenu ⟨0, []⟩).stI.trace.reverse.take 4
        = [Effect.probe, Effect.clear_terminal,
           Effect.print_lines (_printable_options demoMenu) demoMenu._searching_buffer,
           Effect.readch]) :=
  ⟨by decide,
   ((C8_resize_redraw demoMenu (30, 90) Key.ARROW_DOWN (by decide)).1).1,
   (C8_resize_redraw demoMenu (30, 90) Key.ARROW_DOWN (by decide)).2.1⟩
